import Mathlib

/-!
Shallow embedding of `src/packer.py` (plugin distribution packer).

The script is sequential file I/O plus pure string/JSON manipulation.  The
filesystem-facing steps (staging-directory assembly, zip creation) carry no
claim-relevant logic beyond the archive *name*, so the embedding models the
pure data pipeline:

* semantic-version parsing as performed by `semver.VersionInfo.parse`
  (SemVer 2.0.0 grammar: `major.minor.patch[-prerelease][+build]`, numeric
  components without leading zeros), lines 56, 63, 82, 85 of the source;
* the module-level startup: config loading / `engine_versions` resolution
  (lines 37-53) and plugin-version resolution (lines 55-66);
* the per-engine-version `pack` function's metadata rewriting (lines 80-153):
  version-string composition, `VersionName`/`EngineVersion` assignment,
  Win32 removal, platform expansion, and the archive name;
* the main loop (lines 156-157).

Python exceptions that the source does not catch are modelled with
`Except String`, the error string naming the Python exception.
-/

namespace Packer

/-! ### Decimal rendering of naturals (Python `f"{n}"`) -/

/-- Little-endian decimal digits of `n`, fuel-guided so that the kernel can
evaluate it; the fuel branch is unreachable for `n ≤ fuel` except at
`n = 0`, where `[0]` is the correct answer. -/
def natDigitsLECore : Nat → Nat → List Nat
  | 0, n => [n]
  | fuel + 1, n => if n < 10 then [n] else (n % 10) :: natDigitsLECore fuel (n / 10)

/-- Little-endian decimal digits of `n`; `[0]` for `0`. -/
def natDigitsLE (n : Nat) : List Nat :=
  natDigitsLECore n n

/-- Characters of the usual decimal rendering of `n`, most significant first. -/
def natChars (n : Nat) : List Char :=
  (natDigitsLE n).reverse.map Nat.digitChar

/-- Decimal rendering of a natural number, as Python string formatting does. -/
def renderNat (n : Nat) : String :=
  String.mk (natChars n)

/-! ### Semantic versions (`semver.VersionInfo`) -/

/-- Result of a successful `semver.VersionInfo.parse`. -/
structure VersionInfo where
  major : Nat
  minor : Nat
  patch : Nat
  prerelease : Option String
  build : Option String
deriving DecidableEq, Repr

/-- Python `str(VersionInfo)`: `major.minor.patch` followed by `-prerelease`
and `+build` when present. -/
def VersionInfo.render (v : VersionInfo) : String :=
  renderNat v.major ++ "." ++ renderNat v.minor ++ "." ++ renderNat v.patch
    ++ (match v.prerelease with | some p => "-" ++ p | none => "")
    ++ (match v.build with | some b => "+" ++ b | none => "")

/-- Split a character list at the first occurrence of `c`; `none` when `c`
does not occur. -/
def splitFirst (c : Char) : List Char → Option (List Char × List Char)
  | [] => none
  | x :: xs =>
    if x = c then some ([], xs)
    else (splitFirst c xs).map (fun p => (x :: p.1, p.2))

/-- Split a character list on every occurrence of `c` (like Python
`str.split`): always returns at least one (possibly empty) chunk. -/
def splitAll (c : Char) : List Char → List (List Char)
  | [] => [[]]
  | x :: xs =>
    if x = c then [] :: splitAll c xs
    else
      match splitAll c xs with
      | [] => [[x]]
      | h :: t => (x :: h) :: t

/-- Numeric value of a decimal digit character. -/
def digitVal (c : Char) : Nat := c.toNat - 48

/-- SemVer numeric identifier: nonempty, digits only, no leading zero
(except the single digit `0` itself). -/
def parseNumericIdent : List Char → Option Nat
  | [] => none
  | c :: cs =>
    if (c :: cs).all Char.isDigit then
      if c = '0' ∧ cs ≠ [] then none
      else some ((c :: cs).foldl (fun n ch => n * 10 + digitVal ch) 0)
    else none

/-- Characters allowed in prerelease/build identifiers: `[0-9A-Za-z-]`. -/
def isIdentChar (c : Char) : Bool := c.isDigit || c.isAlpha || c == '-'

/-- Valid prerelease identifier: nonempty, ident characters, and when fully
numeric no leading zero. -/
def validPreIdent : List Char → Bool
  | [] => false
  | c :: cs =>
    (c :: cs).all isIdentChar &&
      (if (c :: cs).all Char.isDigit then !(c == '0' && !cs.isEmpty) else true)

/-- Valid build identifier: nonempty, ident characters. -/
def validBuildIdent : List Char → Bool
  | [] => false
  | c :: cs => (c :: cs).all isIdentChar

/-- The SemVer 2.0.0 grammar enforced by `semver.VersionInfo.parse`, over a
character list.  The core `major.minor.patch` may contain neither `-` nor
`+`, so the first `+` starts the build part and, before it, the first `-`
starts the prerelease part. -/
def parseSemverList (cs : List Char) : Option VersionInfo :=
  let pbuild : List Char × Option (List Char) :=
    match splitFirst '+' cs with
    | some (a, b) => (a, some b)
    | none => (cs, none)
  let ppre : List Char × Option (List Char) :=
    match splitFirst '-' pbuild.1 with
    | some (a, b) => (a, some b)
    | none => (pbuild.1, none)
  match splitAll '.' ppre.1 with
  | [ma, mi, pa] =>
    match parseNumericIdent ma, parseNumericIdent mi, parseNumericIdent pa with
    | some major, some minor, some patch =>
      let preOk : Bool :=
        match ppre.2 with
        | none => true
        | some pr => (splitAll '.' pr).all validPreIdent
      let buildOk : Bool :=
        match pbuild.2 with
        | none => true
        | some b => (splitAll '.' b).all validBuildIdent
      if preOk && buildOk then
        some { major := major, minor := minor, patch := patch,
               prerelease := ppre.2.map String.mk,
               build := pbuild.2.map String.mk }
      else none
    | _, _, _ => none
  | _ => none

/-- `semver.VersionInfo.parse`: `some` on a valid SemVer string, `none` where
the Python function raises `ValueError`. -/
def parseSemver (s : String) : Option VersionInfo :=
  parseSemverList s.toList

/-! ### Data model: plugin descriptor (lines 45-50, 117-140 of the source) -/

/-- One entry of the descriptor's `Modules` list.  `other` carries every
module field besides `Type` and `WhitelistPlatforms` verbatim (the source
reads and writes the JSON object as a dictionary, touching only those two
keys). -/
structure Module where
  type : String
  whitelistPlatforms : List String
  other : List (String × String)
deriving DecidableEq, Repr

/-- The plugin descriptor.  `other` carries every top-level field besides
`VersionName`, `EngineVersion` and `Modules` verbatim. -/
structure Descriptor where
  versionName : String
  engineVersion : String
  modules : List Module
  other : List (String × String)
deriving DecidableEq, Repr

/-- `--engine` flag (lines 11-18, 71-73): GAME is the default.  Python
`str()` of the enum renders "game" / "engine". -/
inductive PackageType where
  | GAME
  | ENGINE
deriving DecidableEq, Repr

def PackageType.render : PackageType → String
  | PackageType.GAME => "game"
  | PackageType.ENGINE => "engine"

/-! ### Startup: configuration loading (lines 20-53) -/

/-- Outcome of the `try` block at lines 37-43 reading `PackerConfig.json`:
the file may be missing/unreadable/malformed (`missing`, the bare `except`
swallows the exception), may parse but lack the `EngineVersions` key
(`noKey`), or may supply a list (`versions`). -/
inductive ConfigOutcome where
  | missing
  | noKey
  | versions (vs : List String)
deriving DecidableEq, Repr

/-- Lines 37-53.  The name `engine_versions` is assigned only inside the
config `try` block (line 41); lines 34-35 assign `engine_version` (no `s`)
twice instead of initialising it.  Line 52 then evaluates
`len(engine_versions)`: when the config was not read or lacked the key the
name is unbound and Python raises `NameError`, uncaught, aborting the run.
When the config supplied an empty list, line 53 falls back to the
descriptor's single `EngineVersion`. -/
def resolveEngineVersions (cfg : ConfigOutcome) (descEngineVersion : String) :
    Except String (List String) :=
  let fromConfig : Option (List String) :=
    match cfg with
    | ConfigOutcome.versions vs => some vs
    | _ => none
  match fromConfig with
  | none => Except.error "NameError: name engine_versions is not defined"
  | some vs => Except.ok (if vs.length = 0 then [descEngineVersion] else vs)

/-- Lines 55-60: parse the descriptor's `VersionName` strictly (no retry);
on success produce the full `major.minor.patch` and short `major.minor`
strings; on `ValueError` both assignments are skipped, leaving the verbatim
string and the initial short value `"Unknown"` (line 33). -/
def resolvePluginVersions (versionName : String) : String × String :=
  match parseSemver versionName with
  | some v =>
      (renderNat v.major ++ "." ++ renderNat v.minor ++ "." ++ renderNat v.patch,
       renderNat v.major ++ "." ++ renderNat v.minor)
  | none => (versionName, "Unknown")

/-! ### The `pack` function (lines 80-154) -/

/-- The resolved target engine version inside `pack`: a parsed
`semver.VersionInfo`, or the original string when both parse attempts
failed (lines 81-87). -/
inductive EngineVer where
  | semver (v : VersionInfo)
  | str (s : String)
deriving DecidableEq, Repr

/-- Lines 81-87: strict parse, on `ValueError` retry with `".0"` appended,
on failure again keep the string verbatim. -/
def resolveEngine (s : String) : EngineVer :=
  match parseSemver s with
  | some v => EngineVer.semver v
  | none =>
    match parseSemver (s ++ ".0") with
    | some v => EngineVer.semver v
    | none => EngineVer.str s

/-- Lines 89-92: `major.minor` of a parsed version, the verbatim string
otherwise. -/
def shortEngine : EngineVer → String
  | EngineVer.semver v => renderNat v.major ++ "." ++ renderNat v.minor
  | EngineVer.str s => s

/-- Line 121's `str(engine_version)`: full SemVer rendering of a parsed
version, the verbatim string otherwise. -/
def engineStr : EngineVer → String
  | EngineVer.semver v => v.render
  | EngineVer.str s => s

/-- Python `list.remove(x)`: delete the first occurrence of `x`. -/
def removeFirst (x : String) : List String → List String
  | [] => []
  | y :: ys => if y = x then ys else y :: removeFirst x ys

/-- Lines 125-128, applied to one module: if `"Win32"` is in the platform
list, `platforms.remove("Win32")` deletes its first occurrence. -/
def rewriteModuleWin32 (m : Module) : Module :=
  { m with whitelistPlatforms :=
      if "Win32" ∈ m.whitelistPlatforms
      then removeFirst "Win32" m.whitelistPlatforms
      else m.whitelistPlatforms }

/-- Lines 133-140: append each console platform when absent, in the fixed
order IOS, Switch, PS4, XboxOne. -/
def expandPlatforms (ps : List String) : List String :=
  let ps1 := if "IOS" ∈ ps then ps else ps ++ ["IOS"]
  let ps2 := if "Switch" ∈ ps1 then ps1 else ps1 ++ ["Switch"]
  let ps3 := if "PS4" ∈ ps2 then ps2 else ps2 ++ ["PS4"]
  if "XboxOne" ∈ ps3 then ps3 else ps3 ++ ["XboxOne"]

/-- Lines 130-140, applied to one module: the expansion runs only for
module type `"Runtime"` or `"UncookedOnly"`. -/
def rewriteModuleExpand (m : Module) : Module :=
  if m.type = "Runtime" ∨ m.type = "UncookedOnly"
  then { m with whitelistPlatforms := expandPlatforms m.whitelistPlatforms }
  else m

/-- What one successful `pack` call produces: the staged descriptor written
at lines 150-151 and the archive name of line 153 (`shutil.make_archive`
appends `.zip`). -/
structure PackResult where
  descriptor : Descriptor
  archiveName : String
deriving DecidableEq, Repr

/-- The metadata pipeline of `pack` (lines 80-154).  `mainPluginVersion` and
`shortPluginVersion` are the module-level strings from lines 55-60;
`d` is the descriptor re-read from disk at lines 117-118 (the source file is
never modified, so every pass sees the same `d`).  Line 124 evaluates
`engine_version.major` even when `engine_version` stayed a plain string, in
which case Python raises `AttributeError` and the pass dies before writing
anything. -/
def packMeta (pluginName mainPluginVersion shortPluginVersion : String)
    (ptype : PackageType) (target : String) (d : Descriptor) :
    Except String PackResult :=
  let ev := resolveEngine target
  let shortEv := shortEngine ev
  let fullPluginVersion :=
    mainPluginVersion ++ "+ue." ++ shortEv ++ "." ++ ptype.render
  let filePluginVersion :=
    shortPluginVersion ++ "+ue." ++ shortEv ++ "." ++ ptype.render
  let d1 := { d with versionName := fullPluginVersion,
                     engineVersion := engineStr ev }
  match ev with
  | EngineVer.str _ =>
      Except.error "AttributeError: str object has no attribute major"
  | EngineVer.semver v =>
    let d2 :=
      if 5 ≤ v.major
      then { d1 with modules := d1.modules.map rewriteModuleWin32 }
      else d1
    let d3 := { d2 with modules := d2.modules.map rewriteModuleExpand }
    Except.ok { descriptor := d3,
                archiveName := pluginName ++ "-" ++ filePluginVersion ++ ".zip" }

/-! ### Command line and main loop (lines 70-78, 156-157) -/

/-- Parsed command line: `--engine` selects the package type, and
`--unreal-engine`/`-ue` stores a string in `args.ue`. -/
structure Args where
  type : PackageType
  ue : String
deriving DecidableEq, Repr

/-- Lines 156-157: call `pack` for each resolved engine version in order; an
uncaught exception in one pass aborts the loop, keeping earlier results. -/
def runLoop (f : String → Except String PackResult) :
    List String → List PackResult × Option String
  | [] => ([], none)
  | ev :: rest =>
    match f ev with
    | Except.error e => ([], some e)
    | Except.ok r =>
      let p := runLoop f rest
      (r :: p.1, p.2)

/-- The whole program on its pure inputs.  Note that `a.ue` (the value of
the `--unreal-engine` option, lines 74-76) is never read: the loop at lines
156-157 iterates over `engine_versions` only. -/
def runProgram (pluginName : String) (cfg : ConfigOutcome) (d : Descriptor)
    (a : Args) : Except String (List PackResult × Option String) :=
  let pv := resolvePluginVersions d.versionName
  match resolveEngineVersions cfg d.engineVersion with
  | Except.error e => Except.error e
  | Except.ok evs =>
      Except.ok (runLoop (fun ev => packMeta pluginName pv.1 pv.2 a.type ev d) evs)

end Packer

deriving instance DecidableEq for Except

namespace Packer

/-! ## Helper lemmas: decimal rendering parses back to the same number -/

theorem digitVal_digitChar {d : Nat} (h : d < 10) :
    digitVal (Nat.digitChar d) = d := by
  interval_cases d <;> decide

theorem isDigit_digitChar {d : Nat} (h : d < 10) :
    (Nat.digitChar d).isDigit = true := by
  interval_cases d <;> decide

theorem digitChar_ne_zero_char {d : Nat} (h0 : 0 < d) (h : d < 10) :
    Nat.digitChar d ≠ '0' := by
  interval_cases d <;> decide

theorem natDigitsLECore_lt_ten {fuel n : Nat} (h : n ≤ fuel) :
    ∀ d ∈ natDigitsLECore fuel n, d < 10 := by
  induction fuel generalizing n with
  | zero =>
    intro d hd
    have hn : n = 0 := by omega
    subst hn
    simp only [natDigitsLECore, List.mem_singleton] at hd
    omega
  | succ fuel ih =>
    intro d hd
    simp only [natDigitsLECore] at hd
    split at hd
    · simp only [List.mem_singleton] at hd
      omega
    · simp only [List.mem_cons] at hd
      rcases hd with h1 | h2
      · omega
      · exact ih (by omega) d h2

theorem natDigitsLECore_ne_nil (fuel n : Nat) : natDigitsLECore fuel n ≠ [] := by
  cases fuel with
  | zero => simp [natDigitsLECore]
  | succ fuel =>
    simp only [natDigitsLECore]
    split <;> simp

theorem natDigitsLECore_getLast_pos {fuel n : Nat} (hn : 0 < n) (h : n ≤ fuel) :
    ∀ d, (natDigitsLECore fuel n).getLast? = some d → 0 < d := by
  induction fuel generalizing n with
  | zero => exact absurd hn (by omega)
  | succ fuel ih =>
    intro d hd
    simp only [natDigitsLECore] at hd
    split at hd
    · rw [List.getLast?_singleton] at hd
      injection hd with hnd
      omega
    · rename_i hge
      cases hcore : natDigitsLECore fuel (n / 10) with
      | nil => exact absurd hcore (natDigitsLECore_ne_nil fuel (n / 10))
      | cons x xs =>
        rw [hcore, List.getLast?_cons_cons] at hd
        exact ih (by omega) (by omega) d (hcore ▸ hd)

theorem foldl_digits_core {fuel n : Nat} (h : n ≤ fuel) (a : Nat) :
    List.foldl (fun acc c => acc * 10 + digitVal c) a
      ((natDigitsLECore fuel n).reverse.map Nat.digitChar)
      = a * 10 ^ (natDigitsLECore fuel n).length + n := by
  induction fuel generalizing n a with
  | zero =>
    have hn : n = 0 := by omega
    subst hn
    have h0 : digitVal (Nat.digitChar 0) = 0 := by decide
    simp [natDigitsLECore, h0]
  | succ fuel ih =>
    by_cases hn : n < 10
    · simp only [natDigitsLECore, if_pos hn]
      simp [digitVal_digitChar hn]
    · simp only [natDigitsLECore, if_neg hn]
      rw [List.reverse_cons, List.map_append, List.foldl_append,
        ih (by omega)]
      have hm : n % 10 < 10 := Nat.mod_lt n (by omega)
      simp only [List.map_cons, List.map_nil, List.foldl_cons, List.foldl_nil,
        digitVal_digitChar hm, List.length_cons]
      rw [pow_succ, ← mul_assoc]
      have hdm := Nat.div_add_mod n 10
      generalize a * 10 ^ (natDigitsLECore fuel (n / 10)).length = B
      omega

theorem natChars_ne_nil (n : Nat) : natChars n ≠ [] := by
  simp only [natChars, natDigitsLE, ne_eq, List.map_eq_nil_iff,
    List.reverse_eq_nil_iff]
  exact natDigitsLECore_ne_nil n n

theorem mem_natChars_isDigit {n : Nat} : ∀ c ∈ natChars n, c.isDigit = true := by
  intro c hc
  simp only [natChars, natDigitsLE, List.mem_map, List.mem_reverse] at hc
  obtain ⟨d, hd, rfl⟩ := hc
  exact isDigit_digitChar (natDigitsLECore_lt_ten (le_refl n) d hd)

theorem natChars_lt_ten {n : Nat} (h : n < 10) :
    natChars n = [Nat.digitChar n] := by
  interval_cases n <;> decide

theorem natChars_head_ne_zero {n : Nat} (hn : 10 ≤ n) :
    ∀ c, (natChars n).head? = some c → c ≠ '0' := by
  intro c hc
  simp only [natChars, natDigitsLE, List.head?_map, List.head?_reverse] at hc
  cases hlast : (natDigitsLECore n n).getLast? with
  | none =>
    rw [hlast] at hc
    exact Option.noConfusion hc
  | some d =>
    rw [hlast] at hc
    injection hc with hc
    have hdpos : 0 < d :=
      natDigitsLECore_getLast_pos (by omega) (le_refl n) d hlast
    have hdlt : d < 10 := by
      obtain ⟨hne, heq⟩ := List.mem_getLast?_eq_getLast
        (show d ∈ (natDigitsLECore n n).getLast? from Option.mem_def.mpr hlast)
      exact natDigitsLECore_lt_ten (le_refl n) d (heq ▸ List.getLast_mem hne)
    rw [← hc]
    exact digitChar_ne_zero_char hdpos hdlt

theorem foldl_natChars (n a : Nat) :
    List.foldl (fun acc c => acc * 10 + digitVal c) a (natChars n)
      = a * 10 ^ (natChars n).length + n := by
  simp only [natChars, natDigitsLE, List.length_map, List.length_reverse]
  exact foldl_digits_core (le_refl n) a

theorem parseNumericIdent_natChars (n : Nat) :
    parseNumericIdent (natChars n) = some n := by
  cases h : natChars n with
  | nil => exact absurd h (natChars_ne_nil n)
  | cons c cs =>
    have hdig : (c :: cs).all Char.isDigit = true := by
      rw [List.all_eq_true]
      intro x hx
      exact mem_natChars_isDigit x (h ▸ hx)
    have hfold : List.foldl (fun n ch => n * 10 + digitVal ch) 0 (c :: cs) = n := by
      have hf := foldl_natChars n 0
      rw [h] at hf
      simpa using hf
    have hnolead : ¬(c = '0' ∧ cs ≠ []) := by
      by_cases hn : n < 10
      · have hsing := natChars_lt_ten hn
        rw [h] at hsing
        injection hsing with h1 h2
        simp [h2]
      · have hc0 : c ≠ '0' :=
          natChars_head_ne_zero (n := n) (by omega) c (by rw [h, List.head?_cons])
        simp [hc0]
    simp [parseNumericIdent, hdig, hnolead, hfold]

/-! ## Helper lemmas: splitting and canonical version strings -/

theorem splitFirst_eq_none {c : Char} {l : List Char} (h : ∀ x ∈ l, x ≠ c) :
    splitFirst c l = none := by
  induction l with
  | nil => rfl
  | cons x xs ih =>
    simp only [splitFirst]
    rw [if_neg (h x (List.mem_cons_self x xs)),
      ih (fun y hy => h y (List.mem_cons_of_mem x hy))]
    rfl

theorem splitAll_eq_single {c : Char} {l : List Char} (h : ∀ x ∈ l, x ≠ c) :
    splitAll c l = [l] := by
  induction l with
  | nil => rfl
  | cons x xs ih =>
    simp only [splitAll]
    rw [if_neg (h x (List.mem_cons_self x xs)),
      ih (fun y hy => h y (List.mem_cons_of_mem x hy))]

theorem splitAll_append {c : Char} {a : List Char} (b : List Char)
    (h : ∀ x ∈ a, x ≠ c) :
    splitAll c (a ++ c :: b) = a :: splitAll c b := by
  induction a with
  | nil => simp [splitAll]
  | cons x xs ih =>
    simp only [List.cons_append, splitAll, List.append_eq]
    rw [if_neg (h x (List.mem_cons_self x xs)),
      ih (fun y hy => h y (List.mem_cons_of_mem x hy))]

theorem isDigit_ne_punct {x : Char} (h : x.isDigit = true) :
    x ≠ '.' ∧ x ≠ '-' ∧ x ≠ '+' := by
  refine ⟨?_, ?_, ?_⟩ <;> rintro rfl <;> exact absurd h (by decide)

theorem toList_append (s t : String) : (s ++ t).toList = s.toList ++ t.toList := by
  cases s
  cases t
  rfl

theorem toList_mk (l : List Char) : (String.mk l).toList = l := rfl

/-- Characters of the canonical `M.m` / `M.m.p` strings. -/
theorem toList_canonical2 (M m : Nat) :
    (renderNat M ++ "." ++ renderNat m).toList
      = natChars M ++ '.' :: natChars m := by
  simp only [toList_append, renderNat, toList_mk]
  have hdot : ("." : String).toList = ['.'] := rfl
  rw [hdot, List.append_assoc]
  rfl

theorem toList_canonical3 (M m p : Nat) :
    (renderNat M ++ "." ++ renderNat m ++ "." ++ renderNat p).toList
      = natChars M ++ '.' :: (natChars m ++ '.' :: natChars p) := by
  simp only [toList_append, renderNat, toList_mk]
  have hdot : ("." : String).toList = ['.'] := rfl
  rw [hdot]
  simp [List.append_assoc]

theorem mem_canonical3_digit_or_dot {M m p : Nat} :
    ∀ x ∈ natChars M ++ '.' :: (natChars m ++ '.' :: natChars p),
      x.isDigit = true ∨ x = '.' := by
  intro x hx
  simp only [List.mem_append, List.mem_cons] at hx
  rcases hx with h1 | h2 | h3 | h4 | h5
  · exact Or.inl (mem_natChars_isDigit x h1)
  · exact Or.inr h2
  · exact Or.inl (mem_natChars_isDigit x h3)
  · exact Or.inr h4
  · exact Or.inl (mem_natChars_isDigit x h5)

theorem mem_canonical2_digit_or_dot {M m : Nat} :
    ∀ x ∈ natChars M ++ '.' :: natChars m, x.isDigit = true ∨ x = '.' := by
  intro x hx
  simp only [List.mem_append, List.mem_cons] at hx
  rcases hx with h1 | h2 | h3
  · exact Or.inl (mem_natChars_isDigit x h1)
  · exact Or.inr h2
  · exact Or.inl (mem_natChars_isDigit x h3)

theorem natChars_ne_dot {n : Nat} : ∀ x ∈ natChars n, x ≠ '.' :=
  fun x hx => (isDigit_ne_punct (mem_natChars_isDigit x hx)).1

theorem parseSemverList_canonical3 (M m p : Nat) :
    parseSemverList (natChars M ++ '.' :: (natChars m ++ '.' :: natChars p))
      = some ⟨M, m, p, none, none⟩ := by
  have hplus : splitFirst '+' (natChars M ++ '.' :: (natChars m ++ '.' :: natChars p))
      = none := by
    refine splitFirst_eq_none ?_
    intro x hx
    rcases mem_canonical3_digit_or_dot x hx with hd | hd
    · exact (isDigit_ne_punct hd).2.2
    · subst hd; decide
  have hminus : splitFirst '-' (natChars M ++ '.' :: (natChars m ++ '.' :: natChars p))
      = none := by
    refine splitFirst_eq_none ?_
    intro x hx
    rcases mem_canonical3_digit_or_dot x hx with hd | hd
    · exact (isDigit_ne_punct hd).2.1
    · subst hd; decide
  have hsplit : splitAll '.' (natChars M ++ '.' :: (natChars m ++ '.' :: natChars p))
      = [natChars M, natChars m, natChars p] := by
    rw [splitAll_append _ natChars_ne_dot, splitAll_append _ natChars_ne_dot,
      splitAll_eq_single natChars_ne_dot]
  simp only [parseSemverList, hplus, hminus, hsplit, parseNumericIdent_natChars]
  rfl

theorem parseSemverList_canonical2 (M m : Nat) :
    parseSemverList (natChars M ++ '.' :: natChars m) = none := by
  have hplus : splitFirst '+' (natChars M ++ '.' :: natChars m) = none := by
    refine splitFirst_eq_none ?_
    intro x hx
    rcases mem_canonical2_digit_or_dot x hx with hd | hd
    · exact (isDigit_ne_punct hd).2.2
    · subst hd; decide
  have hminus : splitFirst '-' (natChars M ++ '.' :: natChars m) = none := by
    refine splitFirst_eq_none ?_
    intro x hx
    rcases mem_canonical2_digit_or_dot x hx with hd | hd
    · exact (isDigit_ne_punct hd).2.1
    · subst hd; decide
  have hsplit : splitAll '.' (natChars M ++ '.' :: natChars m)
      = [natChars M, natChars m] := by
    rw [splitAll_append _ natChars_ne_dot, splitAll_eq_single natChars_ne_dot]
  simp only [parseSemverList, hplus, hminus, hsplit]

theorem parseSemver_canonical3 (M m p : Nat) :
    parseSemver (renderNat M ++ "." ++ renderNat m ++ "." ++ renderNat p)
      = some ⟨M, m, p, none, none⟩ := by
  unfold parseSemver
  rw [toList_canonical3, parseSemverList_canonical3]

theorem parseSemver_canonical2 (M m : Nat) :
    parseSemver (renderNat M ++ "." ++ renderNat m) = none := by
  unfold parseSemver
  rw [toList_canonical2, parseSemverList_canonical2]

theorem resolveEngine_short_form (M m : Nat) :
    resolveEngine (renderNat M ++ "." ++ renderNat m)
      = EngineVer.semver ⟨M, m, 0, none, none⟩ := by
  have h3 : parseSemver (renderNat M ++ "." ++ renderNat m ++ ".0")
      = some ⟨M, m, 0, none, none⟩ := by
    unfold parseSemver
    have htl : (renderNat M ++ "." ++ renderNat m ++ ".0").toList
        = natChars M ++ '.' :: (natChars m ++ '.' :: natChars 0) := by
      rw [toList_append, toList_canonical2]
      have hdz : (".0" : String).toList = '.' :: natChars 0 := by decide
      rw [hdz]
      simp [List.append_assoc]
    rw [htl, parseSemverList_canonical3]
  unfold resolveEngine
  rw [parseSemver_canonical2, h3]

/-- Characterization of a successful `pack` pass: when the target resolves
to a parsed version, the staged descriptor and archive name are exactly
these. -/
theorem packMeta_semver {t : String} {v : VersionInfo}
    (hev : resolveEngine t = EngineVer.semver v)
    (pn mv sv : String) (pt : PackageType) (d : Descriptor) :
    packMeta pn mv sv pt t d = Except.ok
      { descriptor :=
          { versionName := mv ++ "+ue." ++ (renderNat v.major ++ "." ++
              renderNat v.minor) ++ "." ++ pt.render,
            engineVersion := v.render,
            modules := (if 5 ≤ v.major then d.modules.map rewriteModuleWin32
              else d.modules).map rewriteModuleExpand,
            other := d.other },
        archiveName := pn ++ "-" ++ (sv ++ "+ue." ++ (renderNat v.major ++ "." ++
          renderNat v.minor) ++ "." ++ pt.render) ++ ".zip" } := by
  unfold packMeta
  rw [hev]
  by_cases h5 : 5 ≤ v.major <;> simp [h5, engineStr, shortEngine]

/-! ## Helper lemmas: platform rewriting -/

theorem expandPlatforms_eq (ps : List String) :
    expandPlatforms ps
      = ps ++ (["IOS", "Switch", "PS4", "XboxOne"].filter
          (fun x => decide (x ∉ ps))) := by
  unfold expandPlatforms
  by_cases h1 : "IOS" ∈ ps <;> by_cases h2 : "Switch" ∈ ps <;>
    by_cases h3 : "PS4" ∈ ps <;> by_cases h4 : "XboxOne" ∈ ps <;>
    simp [h1, h2, h3, h4, List.filter]

theorem consoles_mem_expandPlatforms (ps : List String) :
    ∀ x ∈ (["IOS", "Switch", "PS4", "XboxOne"] : List String),
      x ∈ expandPlatforms ps := by
  intro x hx
  rw [expandPlatforms_eq]
  by_cases hmem : x ∈ ps
  · exact List.mem_append_left _ hmem
  · refine List.mem_append_right _ ?_
    rw [List.mem_filter]
    exact ⟨hx, by simp [hmem]⟩

theorem expandPlatforms_idem (ps : List String) :
    expandPlatforms (expandPlatforms ps) = expandPlatforms ps := by
  conv_lhs => rw [expandPlatforms_eq]
  have hnil : (["IOS", "Switch", "PS4", "XboxOne"].filter
      (fun x => decide (x ∉ expandPlatforms ps))) = [] := by
    rw [List.filter_eq_nil_iff]
    intro a ha
    simp [consoles_mem_expandPlatforms ps a ha]
  rw [hnil, List.append_nil]

theorem count_removeFirst_win32 {ps : List String} (h : "Win32" ∈ ps) :
    List.count "Win32" (removeFirst "Win32" ps)
      = List.count "Win32" ps - 1 := by
  induction ps with
  | nil => cases h
  | cons y ys ih =>
    unfold removeFirst
    by_cases hy : y = "Win32"
    · rw [if_pos hy]
      subst hy
      simp [List.count_cons]
    · rw [if_neg hy]
      have hmem : "Win32" ∈ ys := by
        cases h with
        | head => exact absurd rfl hy
        | tail _ h' => exact h'
      simp [List.count_cons, hy, ih hmem]

theorem count_win32_expand (ps : List String) :
    List.count "Win32" (expandPlatforms ps) = List.count "Win32" ps := by
  rw [expandPlatforms_eq, List.count_append]
  have hz : List.count "Win32" (["IOS", "Switch", "PS4", "XboxOne"].filter
      (fun x => decide (x ∉ ps))) = 0 := by
    rw [List.count_eq_zero]
    intro hmem
    rw [List.mem_filter] at hmem
    have := hmem.1
    simp at this
  rw [hz]
  omega

theorem count_win32_rewriteExpand (mo : Module) :
    List.count "Win32" (rewriteModuleExpand mo).whitelistPlatforms
      = List.count "Win32" mo.whitelistPlatforms := by
  unfold rewriteModuleExpand
  split <;> simp [count_win32_expand]

theorem rewriteModuleWin32_type (mo : Module) :
    (rewriteModuleWin32 mo).type = mo.type := rfl

theorem rewriteModuleWin32_other (mo : Module) :
    (rewriteModuleWin32 mo).other = mo.other := rfl

theorem rewriteModuleExpand_type (mo : Module) :
    (rewriteModuleExpand mo).type = mo.type := by
  unfold rewriteModuleExpand
  split <;> rfl

theorem rewriteModuleExpand_other (mo : Module) :
    (rewriteModuleExpand mo).other = mo.other := by
  unfold rewriteModuleExpand
  split <;> rfl

/-! ## Claims -/

/-- C1: the claim says a missing/unreadable/malformed packer configuration
is silently treated as no override, the run proceeding with the single
descriptor `EngineVersion`.  The code instead aborts: `engine_versions` is
only ever assigned inside the config `try` block (line 41; lines 34-35
assign `engine_version`, without the `s`, twice), so when the config is
missing or lacks the key, `len(engine_versions)` at line 52 raises an
uncaught `NameError` before any packaging begins. -/
theorem c1_missing_config_aborts :
    ∀ descEV : String,
      resolveEngineVersions ConfigOutcome.missing descEV
        = Except.error "NameError: name engine_versions is not defined" ∧
      resolveEngineVersions ConfigOutcome.noKey descEV
        = Except.error "NameError: name engine_versions is not defined" :=
  fun _ => ⟨rfl, rfl⟩

/-- C2 counterexample: for the claimed input the staged `VersionName` is
`"1.2.3+ue.5.1.game"` (the full `major.minor.patch` plugin version is used,
line 114), not the claimed `"1.2.0+ue.5.1.game"`. -/
theorem c2_version_name_counterexample :
    Except.map (fun p => p.1.map (fun r => r.descriptor.versionName))
      (runProgram "MyPlugin" (ConfigOutcome.versions ["5.1"])
        { versionName := "1.2.3", engineVersion := "4.27",
          modules := [{ type := "Runtime", whitelistPlatforms := ["Win32"],
                        other := [] }],
          other := [] }
        { type := PackageType.GAME, ue := "5.1" })
      = Except.ok ["1.2.3+ue.5.1.game"]
    ∧ ("1.2.3+ue.5.1.game" : String) ≠ "1.2.0+ue.5.1.game" := by
  constructor
  · decide
  · decide

/-- C2 amended: same end-to-end run, with the staged `VersionName` equal to
`"1.2.3+ue.5.1.game"` (patch digit retained); module platforms
`["IOS","Switch","PS4","XboxOne"]` and archive name
`MyPlugin-1.2+ue.5.1.game.zip` as claimed. -/
theorem c2_end_to_end :
    runProgram "MyPlugin" (ConfigOutcome.versions ["5.1"])
      { versionName := "1.2.3", engineVersion := "4.27",
        modules := [{ type := "Runtime", whitelistPlatforms := ["Win32"],
                      other := [] }],
        other := [] }
      { type := PackageType.GAME, ue := "5.1" }
      = Except.ok
          ([{ descriptor :=
                { versionName := "1.2.3+ue.5.1.game",
                  engineVersion := "5.1.0",
                  modules := [{ type := "Runtime",
                                whitelistPlatforms :=
                                  ["IOS", "Switch", "PS4", "XboxOne"],
                                other := [] }],
                  other := [] },
              archiveName := "MyPlugin-1.2+ue.5.1.game.zip" }],
           none) := by
  decide

/-- C3 counterexample: for target `"5.1"` the staged `EngineVersion` is
`str(engine_version)` of the parsed version (line 121), i.e. `"5.1.0"`, not
the claimed short string `"5.1"`. -/
theorem c3_engine_version_counterexample :
    Except.map (fun r => r.descriptor.engineVersion)
      (packMeta "MyPlugin" "1.2.3" "1.2" PackageType.GAME "5.1"
        { versionName := "1.2.3", engineVersion := "4.27",
          modules := [], other := [] })
      = Except.ok "5.1.0"
    ∧ ("5.1.0" : String) ≠ "5.1" := by
  constructor
  · decide
  · decide

/-- C6: the claim says a target engine version that fails both parse
attempts is kept as an opaque string and the pass does not crash.  The code
does keep the string (lines 86-92: `shortEngine` is the verbatim value),
but line 124 then evaluates `engine_version.major` on that string and the
pass dies with `AttributeError`, so the claim is right about the intent and
the code crashes. -/
theorem c6_opaque_engine_version_crash :
    resolveEngine "UE4" = EngineVer.str "UE4"
    ∧ shortEngine (resolveEngine "UE4") = "UE4"
    ∧ packMeta "MyPlugin" "1.2.3" "1.2" PackageType.GAME "UE4"
        { versionName := "1.2.3", engineVersion := "4.27",
          modules := [], other := [] }
        = Except.error "AttributeError: str object has no attribute major" := by
  refine ⟨by decide, by decide, by decide⟩

/-- C8: the claim says the `--unreal-engine` command-line value overrides
the packaged engine version.  The code parses the option into `args.ue`
(lines 74-76) but never reads it: the loop at lines 156-157 iterates the
config/descriptor-derived `engine_versions`.  The program result is
therefore independent of the option value, and a run with `-ue 9.9` and
config `EngineVersions = ["4.27"]` packages `4.27`. -/
theorem c8_cli_engine_option_ignored :
    (∀ (pn : String) (cfg : ConfigOutcome) (d : Descriptor)
       (pt : PackageType) (u1 u2 : String),
      runProgram pn cfg d { type := pt, ue := u1 }
        = runProgram pn cfg d { type := pt, ue := u2 })
    ∧ Except.map (fun p => p.1.map PackResult.archiveName)
        (runProgram "MyPlugin" (ConfigOutcome.versions ["4.27"])
          { versionName := "1.2.3", engineVersion := "4.27",
            modules := [{ type := "Runtime", whitelistPlatforms := ["Win32"],
                          other := [] }],
            other := [] }
          { type := PackageType.GAME, ue := "9.9" })
        = Except.ok ["MyPlugin-1.2+ue.4.27.game.zip"] := by
  refine ⟨fun pn cfg d pt u1 u2 => rfl, by decide⟩

/-- C3 amended: for every target that resolves to a parsed semantic
version, the staged `EngineVersion` is the *full* string rendering of the
parsed version (`major.minor.patch` plus any pre-release/build metadata,
Python `str(engine_version)`, line 121), not the short `major.minor`
string; e.g. target `"5.1"` yields `"5.1.0"`. -/
theorem c3_engine_version_render :
    ∀ (t : String) (v : VersionInfo) (pn mv sv : String) (pt : PackageType)
      (d : Descriptor) (res : PackResult),
      resolveEngine t = EngineVer.semver v →
      packMeta pn mv sv pt t d = Except.ok res →
      res.descriptor.engineVersion = v.render := by
  intro t v pn mv sv pt d res hev hok
  rw [packMeta_semver hev pn mv sv pt d] at hok
  injection hok with h'
  rw [← h']

/-- Witness for C3 at target `"5.1"`. -/
theorem c3_engine_version_render_witness :
    ({ descriptor := { versionName := "1.2.3+ue.5.1.game",
                       engineVersion := "5.1.0", modules := [], other := [] },
       archiveName := "MyPlugin-1.2+ue.5.1.game.zip" } : PackResult).descriptor.engineVersion
      = VersionInfo.render
          { major := 5, minor := 1, patch := 0, prerelease := none, build := none } :=
  c3_engine_version_render "5.1"
    { major := 5, minor := 1, patch := 0, prerelease := none, build := none }
    "MyPlugin" "1.2.3" "1.2" PackageType.GAME
    { versionName := "1.2.3", engineVersion := "4.27", modules := [], other := [] }
    _ (by decide) (by decide)

/-- C7 counterexample: a plugin `VersionName` of the form `M.m` is parsed
with *no* `".0"` retry (lines 55-60 parse once and give up), so the short
plugin version stays at its initial value `"Unknown"`, not `"M.m"`. -/
theorem c7_short_version_counterexample :
    resolvePluginVersions "1.2" = ("1.2", "Unknown")
    ∧ ("Unknown" : String) ≠ "1.2" := by
  exact ⟨by decide, by decide⟩

/-- C7 amended: the `".0"` retry exists only for the *target engine
version* inside `pack` (lines 82-87): a target `M.m` is parsed as `M.m.0`
and its short string is `M.m`.  The plugin `VersionName` is parsed strictly
(lines 55-60): a `M.m` value fails, the full version stays the verbatim
string and the short version stays `"Unknown"`; a valid `M.m.p` value
produces full `M.m.p` and short `M.m`. -/
theorem c7_version_resolution (M m p : Nat) :
    resolvePluginVersions (renderNat M ++ "." ++ renderNat m ++ "." ++ renderNat p)
      = (renderNat M ++ "." ++ renderNat m ++ "." ++ renderNat p,
         renderNat M ++ "." ++ renderNat m)
    ∧ resolvePluginVersions (renderNat M ++ "." ++ renderNat m)
      = (renderNat M ++ "." ++ renderNat m, "Unknown")
    ∧ resolveEngine (renderNat M ++ "." ++ renderNat m)
      = EngineVer.semver { major := M, minor := m, patch := 0,
                           prerelease := none, build := none }
    ∧ shortEngine (resolveEngine (renderNat M ++ "." ++ renderNat m))
      = renderNat M ++ "." ++ renderNat m := by
  refine ⟨?_, ?_, resolveEngine_short_form M m, ?_⟩
  · unfold resolvePluginVersions
    rw [parseSemver_canonical3]
  · unfold resolvePluginVersions
    rw [parseSemver_canonical2]
  · rw [resolveEngine_short_form]
    rfl

/-- C10: a `VersionName` (or target) that parses with pre-release or build
metadata has that metadata dropped from the resolver's full and short
strings and from the short engine string: the outputs are rebuilt from the
numeric components only (lines 57-58, 90), so they consist of digits and
dots. -/
theorem c10_prerelease_dropped :
    ∀ (s : String) (v : VersionInfo),
      parseSemver s = some v →
      v.prerelease ≠ none ∨ v.build ≠ none →
      resolvePluginVersions s
        = (renderNat v.major ++ "." ++ renderNat v.minor ++ "." ++
             renderNat v.patch,
           renderNat v.major ++ "." ++ renderNat v.minor)
      ∧ shortEngine (resolveEngine s)
        = renderNat v.major ++ "." ++ renderNat v.minor
      ∧ ∀ c ∈ (renderNat v.major ++ "." ++ renderNat v.minor ++ "." ++
            renderNat v.patch).toList, c.isDigit = true ∨ c = '.' := by
  intro s v hp _hmeta
  refine ⟨?_, ?_, ?_⟩
  · unfold resolvePluginVersions
    rw [hp]
  · unfold resolveEngine
    rw [hp]
    rfl
  · rw [toList_canonical3]
    exact mem_canonical3_digit_or_dot

/-- C4: for every module of type exactly `"Runtime"` or `"UncookedOnly"`,
the rewriter appends each of IOS, Switch, PS4, XboxOne only when absent, in
that fixed order, after the preserved existing entries (lines 130-140);
repeated runs add nothing; the `["Android"]` example ends as
`["Android","IOS","Switch","PS4","XboxOne"]`. -/
theorem c4_platform_expansion :
    (∀ mo : Module, mo.type = "Runtime" ∨ mo.type = "UncookedOnly" →
      (rewriteModuleExpand mo).whitelistPlatforms
        = mo.whitelistPlatforms ++ (["IOS", "Switch", "PS4", "XboxOne"].filter
            (fun x => decide (x ∉ mo.whitelistPlatforms))))
    ∧ (∀ mo : Module,
        rewriteModuleExpand (rewriteModuleExpand mo) = rewriteModuleExpand mo)
    ∧ rewriteModuleExpand
        { type := "Runtime", whitelistPlatforms := ["Android"], other := [] }
        = { type := "Runtime",
            whitelistPlatforms := ["Android", "IOS", "Switch", "PS4", "XboxOne"],
            other := [] } := by
  refine ⟨?_, ?_, by decide⟩
  · intro mo hty
    unfold rewriteModuleExpand
    rw [if_pos hty]
    exact expandPlatforms_eq mo.whitelistPlatforms
  · intro mo
    unfold rewriteModuleExpand
    by_cases hty : mo.type = "Runtime" ∨ mo.type = "UncookedOnly"
    · rw [if_pos hty, if_pos hty]
      simp [expandPlatforms_idem]
    · rw [if_neg hty, if_neg hty]

/-- Witness for C4 on the `["Android"]` Runtime module. -/
theorem c4_platform_expansion_witness :
    (rewriteModuleExpand
        { type := "Runtime", whitelistPlatforms := ["Android"],
          other := [] }).whitelistPlatforms
      = ["Android"] ++ (["IOS", "Switch", "PS4", "XboxOne"].filter
          (fun x => decide (x ∉ (["Android"] : List String)))) :=
  c4_platform_expansion.1
    { type := "Runtime", whitelistPlatforms := ["Android"], other := [] }
    (Or.inl rfl)

/-- C5 counterexample: line 128 uses `platforms.remove("Win32")`, which
deletes only the *first* occurrence, so for a module whose list holds
`"Win32"` twice, `"Win32"` is still present after a pass with engine major
version 5. -/
theorem c5_win32_counterexample :
    Except.map (fun r => r.descriptor.modules.map Module.whitelistPlatforms)
      (packMeta "MyPlugin" "1.2.3" "1.2" PackageType.GAME "5.1"
        { versionName := "1.2.3", engineVersion := "4.27",
          modules := [{ type := "Other",
                        whitelistPlatforms := ["Win32", "Win32"], other := [] }],
          other := [] })
      = Except.ok [["Win32"]]
    ∧ ("Win32" : String) ∈ (["Win32"] : List String) := by
  exact ⟨by decide, by decide⟩

/-- C5 amended: for resolved engine major version ≥ 5 the rewriter removes
the *first* occurrence of `"Win32"` from each module's list (so `"Win32"`
is absent afterwards exactly when it occurred at most once); for major
version < 5 the `"Win32"` occurrences are untouched.  The second conjunct
ties this per-module function to a full `pack` pass. -/
theorem c5_win32_removal :
    (∀ mo : Module,
      ("Win32" ∈ mo.whitelistPlatforms →
        List.count "Win32"
            (rewriteModuleExpand (rewriteModuleWin32 mo)).whitelistPlatforms
          = List.count "Win32" mo.whitelistPlatforms - 1)
      ∧ (List.count "Win32" mo.whitelistPlatforms ≤ 1 →
          "Win32" ∉ (rewriteModuleExpand (rewriteModuleWin32 mo)).whitelistPlatforms)
      ∧ List.count "Win32" (rewriteModuleExpand mo).whitelistPlatforms
          = List.count "Win32" mo.whitelistPlatforms)
    ∧ ∀ (pn mv sv : String) (pt : PackageType) (t : String) (d : Descriptor)
        (v : VersionInfo) (res : PackResult),
        resolveEngine t = EngineVer.semver v →
        packMeta pn mv sv pt t d = Except.ok res →
        res.descriptor.modules
          = d.modules.map (fun mo =>
              if 5 ≤ v.major then rewriteModuleExpand (rewriteModuleWin32 mo)
              else rewriteModuleExpand mo) := by
  constructor
  · intro mo
    have hcount : ∀ hm : "Win32" ∈ mo.whitelistPlatforms,
        List.count "Win32"
            (rewriteModuleExpand (rewriteModuleWin32 mo)).whitelistPlatforms
          = List.count "Win32" mo.whitelistPlatforms - 1 := by
      intro hm
      rw [count_win32_rewriteExpand]
      unfold rewriteModuleWin32
      rw [if_pos hm]
      exact count_removeFirst_win32 hm
    refine ⟨hcount, ?_, count_win32_rewriteExpand mo⟩
    intro hle
    rw [← List.count_eq_zero (a := "Win32")]
    by_cases hm : "Win32" ∈ mo.whitelistPlatforms
    · have hpos : 0 < List.count "Win32" mo.whitelistPlatforms :=
        List.count_pos_iff.mpr hm
      rw [hcount hm]
      omega
    · rw [count_win32_rewriteExpand]
      unfold rewriteModuleWin32
      rw [if_neg hm]
      rw [List.count_eq_zero]
      exact hm
  · intro pn mv sv pt t d v res hev hok
    rw [packMeta_semver hev pn mv sv pt d] at hok
    injection hok with h'
    rw [← h']
    by_cases h5 : 5 ≤ v.major
    · simp only [h5, if_pos, if_true, List.map_map]
      exact (List.map_map _ _ _).symm ▸ rfl
    · simp [h5]

/-- Witness for C5: a single-occurrence module loses its `"Win32"`, and a
concrete `pack` pass for engine `5.1` rewrites modules with the composed
per-module function. -/
theorem c5_win32_removal_witness :
    ("Win32" ∉ (rewriteModuleExpand (rewriteModuleWin32
        { type := "Other", whitelistPlatforms := ["Win32"],
          other := [] })).whitelistPlatforms)
    ∧ ({ descriptor := { versionName := "1.2.3+ue.5.1.game",
                         engineVersion := "5.1.0",
                         modules := [{ type := "Other", whitelistPlatforms := [],
                                       other := [] }],
                         other := [] },
         archiveName := "MyPlugin-1.2+ue.5.1.game.zip" } : PackResult).descriptor.modules
        = ([{ type := "Other", whitelistPlatforms := ["Win32"],
              other := [] }] : List Module).map (fun mo =>
            if 5 ≤ (5 : Nat) then rewriteModuleExpand (rewriteModuleWin32 mo)
            else rewriteModuleExpand mo) :=
  ⟨(c5_win32_removal.1
      { type := "Other", whitelistPlatforms := ["Win32"], other := [] }).2.1
      (by decide),
   c5_win32_removal.2 "MyPlugin" "1.2.3" "1.2" PackageType.GAME "5.1"
      { versionName := "1.2.3", engineVersion := "4.27",
        modules := [{ type := "Other", whitelistPlatforms := ["Win32"],
                      other := [] }],
        other := [] }
      { major := 5, minor := 1, patch := 0, prerelease := none, build := none }
      _ (by decide) (by decide)⟩

/-- C9: a successful `pack` pass carries every top-level descriptor field
other than `VersionName` and `EngineVersion`, and every per-module field
other than `WhitelistPlatforms` (including `Type`), unchanged into the
staged descriptor (the source mutates only those keys, lines 117-140). -/
theorem c9_frame_preservation :
    ∀ (pn mv sv : String) (pt : PackageType) (t : String) (d : Descriptor)
      (res : PackResult),
      packMeta pn mv sv pt t d = Except.ok res →
      res.descriptor.other = d.other
      ∧ res.descriptor.modules.map Module.type = d.modules.map Module.type
      ∧ res.descriptor.modules.map Module.other = d.modules.map Module.other := by
  intro pn mv sv pt t d res hok
  cases hev : resolveEngine t with
  | str s =>
    unfold packMeta at hok
    rw [hev] at hok
    exact Except.noConfusion hok
  | semver v =>
    rw [packMeta_semver hev pn mv sv pt d] at hok
    injection hok with h'
    rw [← h']
    refine ⟨rfl, ?_, ?_⟩ <;>
      by_cases h5 : 5 ≤ v.major <;>
      simp only [h5, if_true, if_false, List.map_map] <;>
      refine List.map_congr_left (fun mo _ => ?_) <;>
      simp [Function.comp, rewriteModuleExpand_type, rewriteModuleExpand_other,
        rewriteModuleWin32_type, rewriteModuleWin32_other]

/-- Witness for C9: a pass for engine `5.1` over a descriptor with extra
top-level and per-module fields. -/
theorem c9_frame_preservation_witness :
    ({ descriptor := { versionName := "1.2.3+ue.5.1.game",
                       engineVersion := "5.1.0",
                       modules := [{ type := "Editor", whitelistPlatforms := [],
                                     other := [("LoadingPhase", "Default")] }],
                       other := [("FriendlyName", "X")] },
       archiveName := "MyPlugin-1.2+ue.5.1.game.zip" } : PackResult).descriptor.other
      = ({ versionName := "1.2.3", engineVersion := "4.27",
           modules := [{ type := "Editor", whitelistPlatforms := ["Win32"],
                         other := [("LoadingPhase", "Default")] }],
           other := [("FriendlyName", "X")] } : Descriptor).other
    ∧ ({ descriptor := { versionName := "1.2.3+ue.5.1.game",
                         engineVersion := "5.1.0",
                         modules := [{ type := "Editor", whitelistPlatforms := [],
                                       other := [("LoadingPhase", "Default")] }],
                         other := [("FriendlyName", "X")] },
         archiveName := "MyPlugin-1.2+ue.5.1.game.zip" } : PackResult).descriptor.modules.map
          Module.type
      = ({ versionName := "1.2.3", engineVersion := "4.27",
           modules := [{ type := "Editor", whitelistPlatforms := ["Win32"],
                         other := [("LoadingPhase", "Default")] }],
           other := [("FriendlyName", "X")] } : Descriptor).modules.map Module.type
    ∧ ({ descriptor := { versionName := "1.2.3+ue.5.1.game",
                         engineVersion := "5.1.0",
                         modules := [{ type := "Editor", whitelistPlatforms := [],
                                       other := [("LoadingPhase", "Default")] }],
                         other := [("FriendlyName", "X")] },
         archiveName := "MyPlugin-1.2+ue.5.1.game.zip" } : PackResult).descriptor.modules.map
          Module.other
      = ({ versionName := "1.2.3", engineVersion := "4.27",
           modules := [{ type := "Editor", whitelistPlatforms := ["Win32"],
                         other := [("LoadingPhase", "Default")] }],
           other := [("FriendlyName", "X")] } : Descriptor).modules.map Module.other :=
  c9_frame_preservation "MyPlugin" "1.2.3" "1.2" PackageType.GAME "5.1"
    { versionName := "1.2.3", engineVersion := "4.27",
      modules := [{ type := "Editor", whitelistPlatforms := ["Win32"],
                    other := [("LoadingPhase", "Default")] }],
      other := [("FriendlyName", "X")] }
    { descriptor := { versionName := "1.2.3+ue.5.1.game",
                      engineVersion := "5.1.0",
                      modules := [{ type := "Editor", whitelistPlatforms := [],
                                    other := [("LoadingPhase", "Default")] }],
                      other := [("FriendlyName", "X")] },
      archiveName := "MyPlugin-1.2+ue.5.1.game.zip" }
    (by decide)

/-- Witness for C10 at `"1.2.3-rc.1"`. -/
theorem c10_prerelease_dropped_witness :
    resolvePluginVersions "1.2.3-rc.1" = ("1.2.3", "1.2")
    ∧ shortEngine (resolveEngine "1.2.3-rc.1") = "1.2" := by
  have h := c10_prerelease_dropped "1.2.3-rc.1"
    { major := 1, minor := 2, patch := 3, prerelease := some "rc.1", build := none }
    (by decide) (by decide)
  exact ⟨h.1.trans (by decide), h.2.1.trans (by decide)⟩

end Packer
